import Mathlib

/-!
Shallow embedding of the authentication core of the `project_template` backend
(`src/backend`): password hashing wrappers, JWT token codec
(`service/security.py`), the request-authentication pipeline
(`api/dependencies.py`), the auth service (`service/auth_service.py`) and the
task-progress middleware (`domain/taskiq_middleware.py`).

Modelling conventions:
- Python dicts with string keys become association lists with first-match
  lookup and replace-or-append assignment (`alookup` / `aset`).
- JSON claim and label values are strings or integers (`PyVal`); Python
  truthiness is made explicit (`PyVal.falsy`).
- Timestamps and durations are integers (seconds); `datetime.utcnow()` is a
  `now` parameter.
- The external `jose` JWT library is modelled symbolically: a token is either
  a well-formed JWT signed with some secret and algorithm, or a malformed
  string.  `joseDecode` performs the validations the codec relies on:
  structure, allowed algorithm, signature (secret equality), and expiry.
- The external `argon2` hasher is modelled as an ideal hash: the hash value
  records the password and the random salt; verification raises on mismatch
  or on a malformed hash, exactly the behaviour the repository's wrappers
  catch.
- Python's `uuid.UUID(hex)` constructor and `int(s, base)` parsing are
  translated directly (prefix stripping, brace stripping, dash removal,
  32-hex-digit check, sign/underscore handling).
- Exceptions become an explicit error type `PyErr`; the repository's API
  exception classes keep their internal codes and detail strings.
-/

namespace ProjectTemplate

/-- A JSON-ish Python value appearing in token claims, task labels and task
arguments: a string or an integer. -/
inductive PyVal where
  | str (s : String)
  | num (n : Int)
deriving DecidableEq

/-- Python truthiness of a `PyVal`: the empty string and the number 0 are
falsy. -/
def PyVal.falsy : PyVal → Bool
  | .str s => s = ""
  | .num n => n = 0

/-- Python truthiness of an optional value (`None` is falsy). -/
def optFalsy : Option PyVal → Bool
  | none => true
  | some v => v.falsy

/-- First-match lookup in an association list, modelling `dict.get` for
string-keyed Python dicts. -/
def alookup {α : Type} (k : String) : List (String × α) → Option α
  | [] => none
  | (k2, v) :: rest => if k2 = k then some v else alookup k rest

/-- Replace-or-append assignment, modelling `d[k] = v` / `d.update(\x7bk: v\x7d)`
on a string-keyed Python dict. -/
def aset {α : Type} (k : String) (v : α) : List (String × α) → List (String × α)
  | [] => [(k, v)]
  | (k2, v2) :: rest => if k2 = k then (k2, v) :: rest else (k2, v2) :: aset k v rest

/-! ### Python `int(s, base)` and `uuid.UUID(hex)` -/

/-- Value of a single digit character under a given base, as Python's `int`
parser accepts it (0-9, a-z, A-Z, restricted to the base). -/
def digitVal? (base : Nat) (c : Char) : Option Nat :=
  let v : Option Nat :=
    if '0' ≤ c ∧ c ≤ '9' then some (c.toNat - 48)
    else if 'a' ≤ c ∧ c ≤ 'z' then some (c.toNat - 87)
    else if 'A' ≤ c ∧ c ≤ 'Z' then some (c.toNat - 55)
    else none
  match v with
  | some d => if d < base then some d else none
  | none => none

/-- Digit-string accumulator: digits with single underscores allowed between
digits (Python numeric-literal rule). -/
def pyDigitsAux (base : Nat) (acc : Nat) : List Char → Option Nat
  | [] => some acc
  | '_' :: c :: rest =>
    match digitVal? base c with
    | some v => pyDigitsAux base (acc * base + v) rest
    | none => none
  | c :: rest =>
    match digitVal? base c with
    | some v => pyDigitsAux base (acc * base + v) rest
    | none => none

/-- Digit string: nonempty, starting with a digit (no leading underscore). -/
def pyDigits? (base : Nat) : List Char → Option Nat
  | [] => none
  | c :: rest =>
    match digitVal? base c with
    | some v => pyDigitsAux base v rest
    | none => none

/-- Unsigned part of Python `int(s, base)`: for base 16 an optional `0x`/`0X`
prefix is allowed, optionally followed by one underscore. -/
def pyNat? (base : Nat) (cs : List Char) : Option Nat :=
  match cs with
  | '0' :: 'x' :: rest =>
    if base = 16 then
      match rest with
      | '_' :: r2 => pyDigits? base r2
      | _ => pyDigits? base rest
    else pyDigits? base cs
  | '0' :: 'X' :: rest =>
    if base = 16 then
      match rest with
      | '_' :: r2 => pyDigits? base r2
      | _ => pyDigits? base rest
    else pyDigits? base cs
  | _ => pyDigits? base cs

/-- Drop whitespace from both ends of a character list (Python `str.strip()`
as applied by `int`). -/
def pyTrim (cs : List Char) : List Char :=
  ((cs.dropWhile Char.isWhitespace).reverse.dropWhile Char.isWhitespace).reverse

/-- Python `int(s, base)`: strip whitespace, optional sign, digit string. -/
def pyInt? (base : Nat) (s : String) : Option Int :=
  match pyTrim s.data with
  | '+' :: rest => (pyNat? base rest).map (fun n => (n : Int))
  | '-' :: rest => (pyNat? base rest).map (fun n => -(n : Int))
  | rest => (pyNat? base rest).map (fun n => (n : Int))

/-- Replace every occurrence of `pat` in a character list by `rep`
(Python `str.replace`); structural in a fuel argument so that it evaluates
by kernel reduction (fuel = input length always suffices for nonempty
patterns). -/
def replaceAllFuel (pat rep : List Char) : Nat → List Char → List Char
  | 0, s => s
  | _ + 1, [] => []
  | fuel + 1, c :: rest =>
    if pat.isPrefixOf (c :: rest) then
      rep ++ replaceAllFuel pat rep fuel ((c :: rest).drop pat.length)
    else
      c :: replaceAllFuel pat rep fuel rest

/-- Python `s.replace(pat, rep)` on strings. -/
def pyReplace (s pat rep : String) : String :=
  ⟨replaceAllFuel pat.data rep.data s.data.length s.data⟩

/-- Python `s.strip(chars)`: drop characters in the set from both ends. -/
def pyStripSet (set : List Char) (cs : List Char) : List Char :=
  ((cs.dropWhile (· ∈ set)).reverse.dropWhile (· ∈ set)).reverse

/-- Python's `uuid.UUID(hex_string)` constructor
(`hex.replace('urn:', '').replace('uuid:', '').strip(braces).replace('-', '')`,
then exactly 32 characters parsed as a base-16 integer in `[0, 2^128)`);
returns the 128-bit integer value, or `none` where the constructor raises
`ValueError`. -/
def pyUUID? (s : String) : Option Nat :=
  let h1 := pyReplace (pyReplace s "urn:" "") "uuid:" ""
  let h2 : List Char := pyStripSet [Char.ofNat 123, Char.ofNat 125] h1.data
  let h3 := pyReplace ⟨h2⟩ "-" ""
  if h3.data.length = 32 then
    match pyInt? 16 h3 with
    | some i => if 0 ≤ i ∧ i.toNat < 2 ^ 128 then some i.toNat else none
    | none => none
  else none

/-- Hexadecimal digit character (lowercase), as used by `str(uuid)`. -/
def hexChar (n : Nat) : Char :=
  if n < 10 then Char.ofNat (48 + n) else Char.ofNat (87 + n)

/-- The 32 lowercase hex digits of a 128-bit integer, most significant
first. -/
def uuidHexChars (n : Nat) : List Char :=
  (List.range 32).map (fun i => hexChar (n / 16 ^ (31 - i) % 16))

/-- Python `str(uuid.UUID(int=n))`: 8-4-4-4-12 dashed lowercase hex form. -/
def uuidStr (n : Nat) : String :=
  let cs := uuidHexChars n
  ⟨cs.take 8 ++ '-' :: (cs.drop 8).take 4 ++ '-' :: (cs.drop 12).take 4 ++
    '-' :: (cs.drop 16).take 4 ++ '-' :: cs.drop 20⟩

deriving instance DecidableEq for Except

/-! ### Errors (`api/exceptions.py` plus the Python builtins that can escape) -/

/-- The exceptions observable in the modelled flows: the repository's API
exception classes (`api/exceptions.py`), the service-layer duplicates it
re-exports, and the Python/library exceptions that the code can raise or
catch. -/
inductive PyErr where
  | notAuthenticated
  | invalidToken
  | tokenExpired
  | userNotFound
  | invalidCredentials
  | userAlreadyExists
  | valueError
  | typeError
  | attributeError
  | indexError
  | multipleResultsFound
  | databaseError
deriving DecidableEq

/-- The `internal_code` attribute of the API exception classes; `none` for
Python/library exceptions that are not part of the classified taxonomy. -/
def PyErr.internalCode : PyErr → Option Nat
  | .notAuthenticated => some 40102
  | .invalidToken => some 40103
  | .tokenExpired => some 40104
  | .userNotFound => some 40105
  | .invalidCredentials => some 40101
  | .userAlreadyExists => some 40001
  | _ => none

/-- The `detail` attribute of the API exception classes. -/
def PyErr.apiDetail : PyErr → Option String
  | .notAuthenticated => some "Not authenticated"
  | .invalidToken => some "Invalid token"
  | .tokenExpired => some "Token has expired"
  | .userNotFound => some "User not found"
  | .invalidCredentials => some "Invalid email or password"
  | .userAlreadyExists => some "User with this email already exists"
  | _ => none

/-- The HTTP `status_code` attribute of the API exception classes. -/
def PyErr.httpStatus : PyErr → Option Nat
  | .notAuthenticated => some 401
  | .invalidToken => some 401
  | .tokenExpired => some 401
  | .userNotFound => some 401
  | .invalidCredentials => some 401
  | .userAlreadyExists => some 400
  | _ => none

/-! ### Token codec (`service/security.py`) -/

/-- The JWT configuration (`core/settings.py`, `jwt_settings`): secret key,
signing algorithm, default expiry in minutes. -/
structure JwtSettings where
  secret_key : String
  algorithm : String
  access_token_expire_minutes : Int
deriving DecidableEq

/-- Token claims: a string-keyed JSON object. -/
abbrev Claims : Type := List (String × PyVal)

/-- A candidate token string, as the `jose` library classifies it: either a
structurally well-formed JWT carrying a payload, signed with some secret
under some algorithm, or a string that is not a JWT at all. -/
inductive Token where
  | signed (payload : Claims) (secret : String) (alg : String)
  | malformed (raw : String)
deriving DecidableEq

/-- Python truthiness of the token string (`if not access_token`): the only
falsy token string is the empty string, which is never a structurally valid
JWT. -/
def Token.falsy : Token → Bool
  | .signed _ _ _ => false
  | .malformed raw => raw = ""

/-- The distinguishable causes with which `jose.jwt.decode` raises
`JWTError`. -/
inductive JoseError where
  | malformedToken
  | wrongAlgorithm
  | signatureMismatch
  | expiredSignature
  | claimsError
deriving DecidableEq

/-- Model of `jose.jwt.decode(token, secret, algorithms=algs)` at time
`now`: reject non-JWT strings, reject an algorithm outside the allowed
list, verify the signature (same secret), then validate the `exp` claim
(must be `int`-able; rejected once `exp < now`). -/
def joseDecode (secret : String) (algs : List String) (now : Int) :
    Token → Except JoseError Claims
  | .malformed _ => .error .malformedToken
  | .signed payload s a =>
    if a ∉ algs then .error .wrongAlgorithm
    else if s ≠ secret then .error .signatureMismatch
    else
      match alookup "exp" payload with
      | none => .ok payload
      | some (.num e) => if e < now then .error .expiredSignature else .ok payload
      | some (.str es) =>
        match pyInt? 10 es with
        | some e => if e < now then .error .expiredSignature else .ok payload
        | none => .error .claimsError

/-- Model of `jose.jwt.encode(claims, secret, algorithm=alg)`. -/
def joseEncode (payload : Claims) (secret : String) (alg : String) : Token :=
  .signed payload secret alg

/-- `create_access_token` (`service/security.py:97`): copy the payload, pick
the expiry (`expires_delta` if truthy — a zero timedelta is falsy — else the
configured default in minutes), set the `exp` claim, and sign.  Durations
and `now` are in seconds. -/
def create_access_token (st : JwtSettings) (now : Int) (data : Claims)
    (expires_delta : Option Int) : Token :=
  let expire : Int :=
    match expires_delta with
    | some d => if d ≠ 0 then now + d else now + st.access_token_expire_minutes * 60
    | none => now + st.access_token_expire_minutes * 60
  joseEncode (aset "exp" (.num expire) data) st.secret_key st.algorithm

/-- `decode_access_token` (`service/security.py:147`): decode with the
configured secret and the single configured algorithm; any `JWTError` is
caught and mapped to `None`. -/
def decode_access_token (st : JwtSettings) (now : Int) (token : Token) :
    Option Claims :=
  match joseDecode st.secret_key [st.algorithm] now token with
  | .ok payload => some payload
  | .error _ => none

/-- The `sub` claim of a token's payload, for stating what a minted token
carries. -/
def Token.subClaim : Token → Option PyVal
  | .signed payload _ _ => alookup "sub" payload
  | .malformed _ => none

/-! ### Password hashing (`service/security.py`, external `argon2` modelled
as an ideal hash) -/

/-- An Argon2 hash string: either a well-formed hash of a password under a
random salt, or a string that is not a valid hash encoding. -/
inductive Argon2Hash where
  | hashed (password : String) (salt : Nat)
  | malformed (raw : String)
deriving DecidableEq

/-- Model of `argon2.PasswordHasher.verify(hash, password)`: raises
`InvalidHashError` on a malformed hash and `VerifyMismatchError` on a
mismatch (both modelled as errors), returns unit on a match. -/
def argonVerify (h : Argon2Hash) (password : String) : Except PyErr Unit :=
  match h with
  | .malformed _ => .error .valueError
  | .hashed pw _ => if pw = password then .ok () else .error .valueError

/-- `verify_password` (`service/security.py:33`): `ph.verify` wrapped in
`try/except Exception: return False`. -/
def verify_password (plain_password : String) (hashed_password : Argon2Hash) : Bool :=
  match argonVerify hashed_password plain_password with
  | .ok _ => true
  | .error _ => false

/-- `get_password_hash` (`service/security.py:65`): `ph.hash(password)` with
a per-call random salt (passed explicitly). -/
def get_password_hash (password : String) (salt : Nat) : Argon2Hash :=
  .hashed password salt

/-! ### Persistence (`repository/models.py`, `repository/base_model.py`) -/

/-- A persisted `User` row: UUID primary key (as its 128-bit integer value),
unique email, Argon2 password hash, creation timestamp. -/
structure UserRec where
  id : Nat
  email : String
  hashed_password : Argon2Hash
  created_at : Int
deriving DecidableEq

/-- SQLAlchemy `ScalarResult.one_or_none()` on the rows matched by a query:
`None` for no row, the row for exactly one, `MultipleResultsFound` for
more. -/
def one_or_none {α : Type} : List α → Except PyErr (Option α)
  | [] => .ok none
  | [x] => .ok (some x)
  | _ => .error .multipleResultsFound

/-! ### Session authentication pipeline (`api/dependencies.py`) -/

/-- `get_current_user` (`api/dependencies.py:34`), as a function of the JWT
settings, the current time, the persisted users, and the result of
`request.cookies.get("access_token")` (already classified as a token
string).  Mirrors the source line by line:
`if not access_token` → `NotAuthenticated`; decode, `if not payload` →
`InvalidToken` (an empty payload dict is falsy); `payload.get("sub")`,
`if not user_id` → `InvalidToken`; `UUID(user_id)` — which raises an
uncaught `ValueError` on a non-UUID string subject and an uncaught
`AttributeError` on an integer subject; then the id lookup with
`.one_or_none()`, `if not user` → `UserNotFound`. -/
def get_current_user (st : JwtSettings) (now : Int) (db : List UserRec)
    (cookie : Option Token) : Except PyErr UserRec :=
  match cookie with
  | none => .error .notAuthenticated
  | some access_token =>
    if access_token.falsy then .error .notAuthenticated
    else
      match decode_access_token st now access_token with
      | none => .error .invalidToken
      | some payload =>
        if payload = [] then .error .invalidToken
        else
          match alookup "sub" payload with
          | none => .error .invalidToken
          | some user_id =>
            if user_id.falsy then .error .invalidToken
            else
              match user_id with
              | .num _ => .error .attributeError
              | .str s =>
                match pyUUID? s with
                | none => .error .valueError
                | some uid =>
                  match one_or_none (db.filter (fun u => u.id = uid)) with
                  | .error e => .error e
                  | .ok none => .error .userNotFound
                  | .ok (some user) => .ok user

/-! ### Auth service (`service/auth_service.py`) -/

/-- `AuthService.signup_user` (`service/auth_service.py:34`): look up the
email with `.one_or_none()`; raise `UserAlreadyExists` if a user exists;
otherwise hash the password, persist one new `User` row (its fresh UUID,
random salt and insert timestamp are passed explicitly, as the database
generates them), and mint a token with `sub = str(user.id)` and the default
expiry.  Returns the resulting database together with the outcome. -/
def signup_user (st : JwtSettings) (now : Int) (db : List UserRec)
    (email password : String) (newId : Nat) (salt : Nat) (createdAt : Int) :
    List UserRec × Except PyErr (UserRec × Token) :=
  match one_or_none (db.filter (fun u => u.email = email)) with
  | .error e => (db, .error e)
  | .ok (some _) => (db, .error .userAlreadyExists)
  | .ok none =>
    let user : UserRec :=
      ⟨newId, email, get_password_hash password salt, createdAt⟩
    let token := create_access_token st now [("sub", .str (uuidStr user.id))] none
    (db ++ [user], .ok (user, token))

/-- `AuthService.signin_user` (`service/auth_service.py:76`): look up the
email with `.one_or_none()`; `if not user or not verify_password(...)` raise
`InvalidCredentials`; otherwise mint a token with `sub = str(user.id)`. -/
def signin_user (st : JwtSettings) (now : Int) (db : List UserRec)
    (email password : String) : Except PyErr (UserRec × Token) :=
  match one_or_none (db.filter (fun u => u.email = email)) with
  | .error e => .error e
  | .ok user? =>
    match user? with
    | none => .error .invalidCredentials
    | some user =>
      if ¬ verify_password password user.hashed_password then
        .error .invalidCredentials
      else
        .ok (user, create_access_token st now [("sub", .str (uuidStr user.id))] none)

/-! ### Task progress middleware (`domain/taskiq_middleware.py`) -/

/-- A row of a progress-tracked entity table: UUID primary key and its
boolean columns (the `*_in_progress` flags). -/
structure EntityRow where
  id : Nat
  flags : List (String × Bool)
deriving DecidableEq

/-- The progress-tracked entity table. -/
abbrev EntityDb : Type := List EntityRow

/-- A Taskiq message: task name, labels, positional and keyword
arguments. -/
structure TaskMessage where
  task_name : String
  labels : List (String × PyVal)
  args : List PyVal
  kwargs : List (String × PyVal)

/-- The `entity_name_to_class_mapping` registry.  In the template source the
dict literal is empty (`taskiq_middleware.py:16`) and a deployment populates
it; it is therefore a parameter, holding the registered entity-type
names. -/
abbrev EntityRegistry : Type := List String

/-- Python list indexing `xs[i]` with an `int` index: negative indices count
from the end, out-of-range raises `IndexError`. -/
def pyIndex {α : Type} (xs : List α) (i : Int) : Except PyErr α :=
  if h : 0 ≤ i ∧ i.toNat < xs.length then .ok (xs.get ⟨i.toNat, h.2⟩)
  else if h2 : i < 0 ∧ (i + xs.length).toNat < xs.length ∧ 0 ≤ i + xs.length then
    .ok (xs.get ⟨(i + xs.length).toNat, h2.2.1⟩)
  else .error .indexError

/-- `ProgressStateMiddleware._get_entity_info` (`taskiq_middleware.py:31`).
Returns `none` where the source logs and returns `None` (missing or falsy
labels, missing or falsy entity id, `ValueError`/`TypeError` from `UUID`,
unregistered entity type), the extracted info on success, and an error for
the Python exceptions the source does not catch: a non-integer
`entity_id_arg_index` label (`TypeError` from list indexing), an
out-of-range index (`IndexError`), and an integer entity id (`AttributeError`
from `UUID(int)`).  The info is (entity id, registered entity-type name,
`entity_id_param`, `progress_field`). -/
def get_entity_info (registry : EntityRegistry) (message : TaskMessage) :
    Except PyErr (Option (Nat × String × PyVal × PyVal)) :=
  match alookup "entity_type" message.labels with
  | none => .ok none
  | some entity_type =>
    if entity_type.falsy then .ok none
    else
      match alookup "entity_id_param" message.labels,
            alookup "progress_field" message.labels with
      | some entity_id_param, some progress_field =>
        if entity_id_param.falsy ∨ progress_field.falsy then .ok none
        else
          let entity_id_str? : Except PyErr (Option PyVal) :=
            if message.args ≠ [] then
              match alookup "entity_id_arg_index" message.labels with
              | none => (pyIndex message.args 0).map some
              | some (.num i) => (pyIndex message.args i).map some
              | some (.str _) => .error .typeError
            else
              .ok (match entity_id_param with
                   | .str p => alookup p message.kwargs
                   | .num _ => none)
          match entity_id_str? with
          | .error e => .error e
          | .ok entity_id_str =>
            if optFalsy entity_id_str then .ok none
            else
              match entity_id_str with
              | some (.num _) => .error .attributeError
              | some (.str s) =>
                (match pyUUID? s with
                 | none => .ok none
                 | some entity_id =>
                   match entity_type with
                   | .str et =>
                     if et ∈ registry then
                       .ok (some (entity_id, et, entity_id_param, progress_field))
                     else .ok none
                   | .num _ => .ok none)
              | none => .ok none
      | _, _ => .ok none

/-- The effect of
`db.execute(update(cls).where(cls.id == entity_id).values(\x7bfield: b\x7d))`:
set the boolean column on every row with the given id. -/
def updFlags (d : EntityDb) (entity_id : Nat) (f : String) (b : Bool) : EntityDb :=
  d.map (fun r => if r.id = entity_id then { r with flags := aset f b r.flags } else r)

/-- A session/statement failure — including a non-string `values` key — is an
exception out of the `with sync_db_session()` block; `fail` is the oracle
for an infrastructure failure. -/
def sessionUpdate (fail : Bool) (d : EntityDb) (entity_id : Nat)
    (progress_field : PyVal) (in_progress : Bool) : Except PyErr EntityDb :=
  if fail then .error .databaseError
  else
    match progress_field with
    | .num _ => .error .databaseError
    | .str f => .ok (updFlags d entity_id f in_progress)

/-- `ProgressStateMiddleware._set_in_progress` (`taskiq_middleware.py:86`):
extract the entity info (outside any try block), skip if absent, and run the
flag update inside `try/except Exception: logging.error(...)` — a failing
update leaves the database unchanged and raises nothing. -/
def set_in_progress (registry : EntityRegistry) (fail : Bool) (d : EntityDb)
    (message : TaskMessage) (in_progress : Bool) : Except PyErr EntityDb :=
  match get_entity_info registry message with
  | .error e => .error e
  | .ok none => .ok d
  | .ok (some (entity_id, _, _, progress_field)) =>
    match sessionUpdate fail d entity_id progress_field in_progress with
    | .ok d2 => .ok d2
    | .error _ => .ok d

/-- `pre_execute` (`taskiq_middleware.py:109`): set the flag to true. -/
def pre_execute (registry : EntityRegistry) (fail : Bool) (d : EntityDb)
    (message : TaskMessage) : Except PyErr EntityDb :=
  set_in_progress registry fail d message true

/-- `post_execute` (`taskiq_middleware.py:115`): set the flag to false. -/
def post_execute (registry : EntityRegistry) (fail : Bool) (d : EntityDb)
    (message : TaskMessage) : Except PyErr EntityDb :=
  set_in_progress registry fail d message false

/-- `on_error` (`taskiq_middleware.py:123`): set the flag to false. -/
def on_error (registry : EntityRegistry) (fail : Bool) (d : EntityDb)
    (message : TaskMessage) : Except PyErr EntityDb :=
  set_in_progress registry fail d message false

/-- Outcome of the wrapped job itself. -/
inductive JobOutcome where
  | success
  | raised
deriving DecidableEq

/-- One job execution as the Taskiq runtime drives the middleware:
`pre_execute` before the job, then `post_execute` after a successful job or
`on_error` after a raising job.  `failPre`/`failPost` are the
infrastructure-failure oracles for the two flag updates; the job's own
outcome is an input and is returned unchanged by the middleware. -/
def runJob (registry : EntityRegistry) (failPre failPost : Bool) (d : EntityDb)
    (message : TaskMessage) (outcome : JobOutcome) :
    Except PyErr (EntityDb × JobOutcome) :=
  match pre_execute registry failPre d message with
  | .error e => .error e
  | .ok d1 =>
    match outcome with
    | .success =>
      match post_execute registry failPost d1 message with
      | .error e => .error e
      | .ok d2 => .ok (d2, .success)
    | .raised =>
      match on_error registry failPost d1 message with
      | .error e => .error e
      | .ok d2 => .ok (d2, .raised)

/-- The progress flag of the entity with the given id. -/
def flagOf (d : EntityDb) (entity_id : Nat) (field : String) : Option Bool :=
  match d.find? (fun r => r.id = entity_id) with
  | none => none
  | some r => alookup field r.flags

/-! ### Helper lemmas -/

theorem alookup_aset_self {α : Type} (k : String) (v : α) (l : List (String × α)) :
    alookup k (aset k v l) = some v := by
  induction l with
  | nil => simp [aset, alookup]
  | cons h t ih =>
    obtain ⟨k2, v2⟩ := h
    by_cases hk : k2 = k
    · simp [aset, alookup, hk]
    · simp [aset, alookup, hk, ih]

theorem filter_key_eq_single {α κ : Type} [DecidableEq κ] (key : α → κ)
    {l : List α} {x : α} (hn : (l.map key).Nodup) (hx : x ∈ l) :
    l.filter (fun y => key y = key x) = [x] := by
  induction l with
  | nil => cases hx
  | cons a t ih =>
    rw [List.map_cons, List.nodup_cons] at hn
    rcases List.mem_cons.mp hx with rfl | hxt
    · rw [List.filter_cons_of_pos (by simp)]
      have ht : t.filter (fun y => key y = key x) = [] := by
        rw [List.filter_eq_nil_iff]
        intro b hb
        simp only [decide_eq_true_eq]
        intro hkey
        exact hn.1 (hkey ▸ List.mem_map_of_mem key hb)
      rw [ht]
    · have hne : key a ≠ key x := by
        intro h
        exact hn.1 (h ▸ List.mem_map_of_mem key hxt)
      rw [List.filter_cons_of_neg (by simp [hne])]
      exact ih hn.2 hxt

theorem filter_key_short {α κ : Type} [DecidableEq κ] (key : α → κ)
    {l : List α} (hn : (l.map key).Nodup) (k : κ) :
    l.filter (fun y => key y = k) = [] ∨
      ∃ x ∈ l, l.filter (fun y => key y = k) = [x] := by
  induction l with
  | nil => exact .inl rfl
  | cons a t ih =>
    rw [List.map_cons, List.nodup_cons] at hn
    by_cases ha : key a = k
    · refine .inr ⟨a, List.mem_cons_self a t, ?_⟩
      rw [List.filter_cons_of_pos (by simp [ha])]
      have ht : t.filter (fun y => key y = k) = [] := by
        rw [List.filter_eq_nil_iff]
        intro b hb
        simp only [decide_eq_true_eq]
        intro hkey
        exact hn.1 ((ha ▸ hkey : key b = key a) ▸ List.mem_map_of_mem key hb)
      rw [ht]
    · rw [List.filter_cons_of_neg (by simp [ha])]
      rcases ih hn.2 with h | ⟨x, hx, hfx⟩
      · exact .inl h
      · exact .inr ⟨x, List.mem_cons_of_mem a hx, hfx⟩

theorem flagOf_updFlags {d : EntityDb} {eid : Nat} (f : String) (b : Bool)
    (h : ∃ r ∈ d, r.id = eid) :
    flagOf (updFlags d eid f b) eid f = some b := by
  induction d with
  | nil =>
    rcases h with ⟨r, hr, _⟩
    cases hr
  | cons a t ih =>
    by_cases ha : a.id = eid
    · simp [updFlags, flagOf, List.find?, ha, alookup_aset_self]
    · rcases h with ⟨r, hr, hrid⟩
      rcases List.mem_cons.mp hr with rfl | hrt
      · exact absurd hrid ha
      · have ih2 := ih ⟨r, hrt, hrid⟩
        simpa [updFlags, flagOf, List.find?, ha] using ih2

theorem exists_id_updFlags {d : EntityDb} {eid : Nat} (f : String) (b : Bool)
    (h : ∃ r ∈ d, r.id = eid) :
    ∃ r ∈ updFlags d eid f b, r.id = eid := by
  rcases h with ⟨r, hr, hrid⟩
  refine ⟨if r.id = eid then { r with flags := aset f b r.flags } else r,
    List.mem_map_of_mem _ hr, ?_⟩
  by_cases h2 : r.id = eid <;> simp [h2, hrid]

theorem subClaim_create (st : JwtSettings) (now : Int) (s : String)
    (delta : Option Int) :
    (create_access_token st now [("sub", .str s)] delta).subClaim =
      some (.str s) := by
  cases delta <;> rfl

/-! ### Claim theorems -/

/-- C7: every token string that fails validation — not a JWT at all, signed
under an algorithm other than the configured one, signed with a different
secret, or past its expiry — makes `decode_access_token` return one and the
same detail-free value `none`, and in general every `jose` decoding error is
collapsed to that same `none`. -/
theorem decode_access_token_uniform_failure (st : JwtSettings) (now : Int) :
    (∀ raw, decode_access_token st now (.malformed raw) = none) ∧
    (∀ p s a, a ≠ st.algorithm → decode_access_token st now (.signed p s a) = none) ∧
    (∀ p s, s ≠ st.secret_key →
      decode_access_token st now (.signed p s st.algorithm) = none) ∧
    (∀ p e, alookup "exp" p = some (.num e) → e < now →
      decode_access_token st now (.signed p st.secret_key st.algorithm) = none) ∧
    (∀ t e, joseDecode st.secret_key [st.algorithm] now t = .error e →
      decode_access_token st now t = none) := by
  refine ⟨fun raw => rfl, ?_, ?_, ?_, ?_⟩
  · intro p s a ha
    simp [decode_access_token, joseDecode, ha]
  · intro p s hs
    simp [decode_access_token, joseDecode, hs]
  · intro p e hexp hlt
    simp [decode_access_token, joseDecode, hexp, hlt]
  · intro t e herr
    simp [decode_access_token, herr]

/-- C7 witness: the three concrete failure causes all evaluate to the same
`none`. -/
theorem decode_access_token_uniform_failure_witness :
    decode_access_token ⟨"k", "HS256", 10080⟩ 0 (.malformed "garbage") = none ∧
    decode_access_token ⟨"k", "HS256", 10080⟩ 0
      (.signed [("sub", .str "a")] "other-secret" "HS256") = none ∧
    decode_access_token ⟨"k", "HS256", 10080⟩ 100
      (.signed [("exp", .num 50)] "k" "HS256") = none :=
  ⟨(decode_access_token_uniform_failure ⟨"k", "HS256", 10080⟩ 0).1 "garbage",
   (decode_access_token_uniform_failure ⟨"k", "HS256", 10080⟩ 0).2.2.1
     [("sub", .str "a")] "other-secret" (by decide),
   (decode_access_token_uniform_failure ⟨"k", "HS256", 10080⟩ 100).2.2.2.1
     [("exp", .num 50)] 50 (by decide) (by decide)⟩

/-- C8: decoding immediately after encoding, with any positive
`expires_delta`, succeeds and yields exactly the encoded claims with the
absolute-expiry claim `exp = now + d` set (Python dict-update union). -/
theorem decode_after_encode (st : JwtSettings) (now : Int) (c : Claims)
    (d : Int) (hd : 0 < d) :
    decode_access_token st now (create_access_token st now c (some d)) =
      some (aset "exp" (.num (now + d)) c) := by
  have hne : d ≠ 0 := by omega
  have hlt : ¬ (now + d < now) := by omega
  simp [create_access_token, joseEncode, decode_access_token, joseDecode,
    hne, hlt, alookup_aset_self]

/-- C8 witness: a concrete round trip. -/
theorem decode_after_encode_witness :
    decode_access_token ⟨"k", "HS256", 10080⟩ 0
      (create_access_token ⟨"k", "HS256", 10080⟩ 0 [("sub", .str "u")] (some 60)) =
      some [("sub", .str "u"), ("exp", .num 60)] := by
  rw [decode_after_encode ⟨"k", "HS256", 10080⟩ 0 [("sub", .str "u")] 60 (by decide)]
  rfl

/-- C9: verification succeeds on the hash of the same password, fails (by
returning `false`, not raising) on the hash of a different password, and
returns `false` rather than raising on a malformed hash string. -/
theorem password_hash_verify (p p1 p2 raw : String) (salt : Nat)
    (hne : p1 ≠ p2) :
    verify_password p (get_password_hash p salt) = true ∧
    verify_password p2 (get_password_hash p1 salt) = false ∧
    verify_password p (.malformed raw) = false := by
  refine ⟨?_, ?_, rfl⟩
  · simp [verify_password, argonVerify, get_password_hash]
  · simp [verify_password, argonVerify, get_password_hash, hne]

/-- C9 witness: a concrete password pair. -/
theorem password_hash_verify_witness :
    verify_password "Secret123!" (get_password_hash "Secret123!" 7) = true ∧
    verify_password "wrong" (get_password_hash "Secret123!" 7) = false ∧
    verify_password "Secret123!" (.malformed "not-a-hash") = false :=
  password_hash_verify "Secret123!" "Secret123!" "wrong" "not-a-hash" 7 (by decide)

/-- C10: a token that decodes to a nonempty payload whose subject claim is a
nonempty string that is not a valid UUID makes `get_current_user` end in the
unclassified `ValueError` from the `UUID` constructor — before, and
independent of, the user lookup — rather than in any of the classified 401
failures. -/
theorem get_current_user_nonuuid_subject
    (st : JwtSettings) (now : Int) (db : List UserRec) (t : Token)
    (p : Claims) (s : String)
    (ht : t.falsy = false)
    (hdec : decode_access_token st now t = some p)
    (hp : p ≠ [])
    (hsub : alookup "sub" p = some (.str s))
    (hne : s ≠ "")
    (hu : pyUUID? s = none) :
    get_current_user st now db (some t) = .error .valueError ∧
    PyErr.valueError.internalCode = none ∧
    PyErr.valueError ≠ .notAuthenticated ∧
    PyErr.valueError ≠ .invalidToken ∧
    PyErr.valueError ≠ .userNotFound := by
  refine ⟨?_, rfl, by decide, by decide, by decide⟩
  simp [get_current_user, ht, hdec, hp, hsub, PyVal.falsy, hne, hu]

/-- C10 witness: the subject `"not-a-uuid"` hits the `ValueError` state,
whatever the database holds. -/
theorem get_current_user_nonuuid_subject_witness :
    get_current_user ⟨"k", "HS256", 10080⟩ 0 []
      (some (.signed [("sub", .str "not-a-uuid")] "k" "HS256")) =
      .error .valueError :=
  (get_current_user_nonuuid_subject ⟨"k", "HS256", 10080⟩ 0 []
    (.signed [("sub", .str "not-a-uuid")] "k" "HS256")
    [("sub", .str "not-a-uuid")] "not-a-uuid" rfl (by decide) (by decide)
    (by decide) (by decide) (by decide)).1

/-- C2 counterexample: a token signed with the configured secret and
algorithm whose expiry (50) has passed (now = 100) is rejected with the
generic `InvalidToken` variant (40103), not with the distinct
`TokenExpired` variant (40104) the claim names. -/
theorem expired_token_variant_counterexample :
    get_current_user ⟨"k", "HS256", 10080⟩ 100 []
      (some (.signed [("sub", .str "00000000-0000-0000-0000-000000000005"),
        ("exp", .num 50)] "k" "HS256")) = .error .invalidToken ∧
    PyErr.invalidToken ≠ PyErr.tokenExpired ∧
    PyErr.invalidToken.internalCode = some 40103 ∧
    PyErr.tokenExpired.internalCode = some 40104 := by decide

/-- C2 amended: a well-formed token whose expiry has passed fails with the
generic `InvalidToken` variant (40103) — the same variant produced for a
token signed with a different secret — because `decode_access_token`
collapses expiry to `None`; `TokenExpiredException` (40104) exists in the
exception taxonomy but is raised nowhere. -/
theorem expired_token_fails_generic
    (st : JwtSettings) (now : Int) (db : List UserRec) (p : Claims) (e : Int)
    (hexp : alookup "exp" p = some (.num e)) (hlt : e < now) :
    get_current_user st now db (some (.signed p st.secret_key st.algorithm)) =
      .error .invalidToken ∧
    (∀ p2 s2, s2 ≠ st.secret_key →
      get_current_user st now db (some (.signed p2 s2 st.algorithm)) =
        .error .invalidToken) := by
  constructor
  · simp [get_current_user, Token.falsy, decode_access_token, joseDecode, hexp, hlt]
  · intro p2 s2 hs
    simp [get_current_user, Token.falsy, decode_access_token, joseDecode, hs]

/-- C2 amended witness: a concrete expired token and a concrete tampered
token produce the same `InvalidToken` failure. -/
theorem expired_token_fails_generic_witness :
    get_current_user ⟨"s2", "HS256", 10080⟩ 200 []
      (some (.signed [("exp", .num 100)] "s2" "HS256")) =
      .error .invalidToken ∧
    get_current_user ⟨"s2", "HS256", 10080⟩ 200 []
      (some (.signed [("exp", .num 100)] "attacker" "HS256")) =
      .error .invalidToken :=
  ⟨(expired_token_fails_generic ⟨"s2", "HS256", 10080⟩ 200 [] [("exp", .num 100)]
      100 (by decide) (by decide)).1,
   (expired_token_fails_generic ⟨"s2", "HS256", 10080⟩ 200 [] [("exp", .num 100)]
      100 (by decide) (by decide)).2 [("exp", .num 100)] "attacker" (by decide)⟩

/-- C1 counterexample: a decodable token whose subject is the non-UUID
string `"zzz"` drives `get_current_user` into a sixth terminal state — the
unclassified `ValueError` — so the pipeline is not total over the five
claimed states. -/
theorem session_auth_five_states_counterexample :
    get_current_user ⟨"k", "HS256", 10080⟩ 0 []
      (some (.signed [("sub", .str "zzz")] "k" "HS256")) = .error .valueError ∧
    PyErr.valueError ≠ .notAuthenticated ∧
    PyErr.valueError ≠ .invalidToken ∧
    PyErr.valueError ≠ .userNotFound ∧
    PyErr.valueError.internalCode = none := by decide

/-- C1 amended: over requests whose cookie database has unique user ids and
whose decoded subject claim — when present and truthy — is a string parsing
as a UUID, the pipeline ends in exactly one of the five states, checked in
order: no cookie (or an empty cookie value) → `NotAuthenticated`; decode
failure → `InvalidToken`; empty payload, missing or falsy subject →
`InvalidToken`; no persisted user with the subject's id → `UserNotFound`;
otherwise the persisted user is returned. -/
theorem session_auth_five_states
    (st : JwtSettings) (now : Int) (db : List UserRec) (cookie : Option Token)
    (hdb : (db.map (fun u => u.id)).Nodup)
    (hsub : ∀ t p v, cookie = some t → decode_access_token st now t = some p →
      alookup "sub" p = some v → v.falsy = false →
      ∃ s, v = .str s ∧ (pyUUID? s).isSome) :
    (cookie = none → get_current_user st now db cookie = .error .notAuthenticated) ∧
    (∀ t, cookie = some t → t.falsy = true →
      get_current_user st now db cookie = .error .notAuthenticated) ∧
    (∀ t, cookie = some t → t.falsy = false → decode_access_token st now t = none →
      get_current_user st now db cookie = .error .invalidToken) ∧
    (∀ t p, cookie = some t → t.falsy = false →
      decode_access_token st now t = some p →
      (p = [] ∨ alookup "sub" p = none ∨
        ∃ v, alookup "sub" p = some v ∧ v.falsy = true) →
      get_current_user st now db cookie = .error .invalidToken) ∧
    (∀ t p s uid, cookie = some t → t.falsy = false →
      decode_access_token st now t = some p → p ≠ [] →
      alookup "sub" p = some (.str s) → s ≠ "" → pyUUID? s = some uid →
      (∀ u ∈ db, u.id ≠ uid) →
      get_current_user st now db cookie = .error .userNotFound) ∧
    (∀ t p s uid u, cookie = some t → t.falsy = false →
      decode_access_token st now t = some p → p ≠ [] →
      alookup "sub" p = some (.str s) → s ≠ "" → pyUUID? s = some uid →
      u ∈ db → u.id = uid →
      get_current_user st now db cookie = .ok u) ∧
    (get_current_user st now db cookie = .error .notAuthenticated ∨
     get_current_user st now db cookie = .error .invalidToken ∨
     get_current_user st now db cookie = .error .userNotFound ∨
     ∃ u ∈ db, get_current_user st now db cookie = .ok u) := by
  refine ⟨?_, ?_, ?_, ?_, ?_, ?_, ?_⟩
  · intro h
    subst h
    rfl
  · intro t htc hf
    subst htc
    simp [get_current_user, hf]
  · intro t htc hf hdec
    subst htc
    simp [get_current_user, hf, hdec]
  · intro t p htc hf hdec hcases
    subst htc
    rcases hcases with rfl | hnone | ⟨v, hv, hvf⟩
    · simp [get_current_user, hf, hdec]
    · by_cases hp : p = [] <;> simp [get_current_user, hf, hdec, hp, hnone]
    · by_cases hp : p = [] <;> simp [get_current_user, hf, hdec, hp, hv, hvf]
  · intro t p s uid htc hf hdec hp hs hne huuid hmem
    subst htc
    have hfe : db.filter (fun u => u.id = uid) = [] := by
      rw [List.filter_eq_nil_iff]
      intro u hu
      simp only [decide_eq_true_eq]
      exact hmem u hu
    simp [get_current_user, hf, hdec, hp, hs, PyVal.falsy, hne, huuid, hfe,
      one_or_none]
  · intro t p s uid u htc hf hdec hp hs hne huuid hu hid
    subst htc
    subst hid
    have hfu : db.filter (fun y => y.id = u.id) = [u] :=
      filter_key_eq_single (fun y : UserRec => y.id) hdb hu
    simp [get_current_user, hf, hdec, hp, hs, PyVal.falsy, hne, huuid, hfu,
      one_or_none]
  · cases hc : cookie with
    | none => exact .inl (by simp [get_current_user])
    | some t =>
      by_cases hf : t.falsy
      · exact .inl (by simp [get_current_user, hf])
      · cases hdec : decode_access_token st now t with
        | none => exact .inr (.inl (by simp [get_current_user, hf, hdec]))
        | some p =>
          by_cases hp : p = []
          · exact .inr (.inl (by simp [get_current_user, hf, hdec, hp]))
          · cases hs : alookup "sub" p with
            | none => exact .inr (.inl (by simp [get_current_user, hf, hdec, hp, hs]))
            | some v =>
              by_cases hvf : v.falsy
              · exact .inr (.inl (by simp [get_current_user, hf, hdec, hp, hs, hvf]))
              · obtain ⟨s, rfl, hps⟩ :=
                  hsub t p v hc hdec hs (by simpa using hvf)
                obtain ⟨uid, huid⟩ := Option.isSome_iff_exists.mp hps
                rcases filter_key_short (fun u : UserRec => u.id) hdb uid with
                  hfe | ⟨x, hx, hfx⟩
                · refine .inr (.inr (.inl ?_))
                  simp [get_current_user, hf, hdec, hp, hs, hvf, huid, hfe,
                    one_or_none]
                · refine .inr (.inr (.inr ⟨x, hx, ?_⟩))
                  simp [get_current_user, hf, hdec, hp, hs, hvf, huid, hfx,
                    one_or_none]

/-- C1 amended witness: a valid token for a persisted user reaches the
fifth state and returns that user. -/
theorem session_auth_five_states_witness :
    get_current_user ⟨"k", "HS256", 10080⟩ 0
      [⟨5, "a@b.com", .hashed "pw" 1, 0⟩]
      (some (.signed [("sub", .str "00000000-0000-0000-0000-000000000005")]
        "k" "HS256")) =
      .ok ⟨5, "a@b.com", .hashed "pw" 1, 0⟩ := by
  have hsub : ∀ t p v,
      (some (Token.signed [("sub", .str "00000000-0000-0000-0000-000000000005")]
        "k" "HS256") = some t) →
      decode_access_token ⟨"k", "HS256", 10080⟩ 0 t = some p →
      alookup "sub" p = some v → v.falsy = false →
      ∃ s, v = .str s ∧ (pyUUID? s).isSome := by
    intro t p v ht hp hv hvf
    simp only [Option.some.injEq] at ht
    subst ht
    injection hp with hp2
    subst hp2
    injection hv with hv2
    subst hv2
    exact ⟨"00000000-0000-0000-0000-000000000005", rfl, by decide⟩
  have h := session_auth_five_states ⟨"k", "HS256", 10080⟩ 0
    [⟨5, "a@b.com", .hashed "pw" 1, 0⟩]
    (some (.signed [("sub", .str "00000000-0000-0000-0000-000000000005")]
      "k" "HS256")) (by decide) hsub
  exact h.2.2.2.2.2.1
    (.signed [("sub", .str "00000000-0000-0000-0000-000000000005")] "k" "HS256")
    [("sub", .str "00000000-0000-0000-0000-000000000005")]
    "00000000-0000-0000-0000-000000000005" 5
    ⟨5, "a@b.com", .hashed "pw" 1, 0⟩
    rfl rfl (by decide) (by decide) (by decide) (by decide) (by decide)
    (by decide) rfl

/-- C3: signin produces the one error value `InvalidCredentials` — same
type, internal code 40101, detail string — both when no user has the email
and when password verification against the stored hash fails, and on
success returns the user together with a token whose subject claim is the
string form of that user's id. -/
theorem signin_uniform_invalid_credentials
    (st : JwtSettings) (now : Int) (db : List UserRec) (email password : String) :
    (db.filter (fun u => u.email = email) = [] →
      signin_user st now db email password = .error .invalidCredentials) ∧
    (∀ u, db.filter (fun u2 => u2.email = email) = [u] →
      verify_password password u.hashed_password = false →
      signin_user st now db email password = .error .invalidCredentials) ∧
    PyErr.invalidCredentials.internalCode = some 40101 ∧
    PyErr.invalidCredentials.apiDetail = some "Invalid email or password" ∧
    (∀ u, db.filter (fun u2 => u2.email = email) = [u] →
      verify_password password u.hashed_password = true →
      signin_user st now db email password =
        .ok (u, create_access_token st now [("sub", .str (uuidStr u.id))] none) ∧
      (create_access_token st now [("sub", .str (uuidStr u.id))] none).subClaim =
        some (.str (uuidStr u.id))) := by
  refine ⟨?_, ?_, rfl, rfl, ?_⟩
  · intro hf
    simp [signin_user, hf, one_or_none]
  · intro u hf hv
    simp [signin_user, hf, one_or_none, hv]
  · intro u hf hv
    exact ⟨by simp [signin_user, hf, one_or_none, hv], subClaim_create st now _ none⟩

/-- C3 witness: unknown email and wrong password yield the identical error;
the correct password yields the user and its token. -/
theorem signin_uniform_invalid_credentials_witness :
    signin_user ⟨"k", "HS256", 10080⟩ 0 [⟨5, "a@b.com", .hashed "pw" 1, 0⟩]
      "x@y.com" "pw" = .error .invalidCredentials ∧
    signin_user ⟨"k", "HS256", 10080⟩ 0 [⟨5, "a@b.com", .hashed "pw" 1, 0⟩]
      "a@b.com" "wrong" = .error .invalidCredentials ∧
    signin_user ⟨"k", "HS256", 10080⟩ 0 [⟨5, "a@b.com", .hashed "pw" 1, 0⟩]
      "a@b.com" "pw" =
      .ok (⟨5, "a@b.com", .hashed "pw" 1, 0⟩,
        create_access_token ⟨"k", "HS256", 10080⟩ 0
          [("sub", .str (uuidStr 5))] none) :=
  ⟨(signin_uniform_invalid_credentials ⟨"k", "HS256", 10080⟩ 0
      [⟨5, "a@b.com", .hashed "pw" 1, 0⟩] "x@y.com" "pw").1 (by decide),
   (signin_uniform_invalid_credentials ⟨"k", "HS256", 10080⟩ 0
      [⟨5, "a@b.com", .hashed "pw" 1, 0⟩] "a@b.com" "wrong").2.1
      ⟨5, "a@b.com", .hashed "pw" 1, 0⟩ (by decide) (by decide),
   ((signin_uniform_invalid_credentials ⟨"k", "HS256", 10080⟩ 0
      [⟨5, "a@b.com", .hashed "pw" 1, 0⟩] "a@b.com" "pw").2.2.2.2
      ⟨5, "a@b.com", .hashed "pw" 1, 0⟩ (by decide) (by decide)).1⟩

/-- C4: signup on an already-present email (under the unique-email database
invariant) fails with `UserAlreadyExists` leaving the database untouched;
signup on a fresh email appends exactly one new record holding the Argon2
hash of the password — never the plaintext, which the hash type excludes —
and mints a token whose subject claim is the new record's id. -/
theorem signup_duplicate_or_fresh
    (st : JwtSettings) (now : Int) (db : List UserRec) (email password : String)
    (newId salt : Nat) (createdAt : Int) :
    ((db.map (fun u => u.email)).Nodup → (∃ u ∈ db, u.email = email) →
      signup_user st now db email password newId salt createdAt =
        (db, .error .userAlreadyExists)) ∧
    (db.filter (fun u => u.email = email) = [] →
      signup_user st now db email password newId salt createdAt =
        (db ++ [⟨newId, email, get_password_hash password salt, createdAt⟩],
         .ok (⟨newId, email, get_password_hash password salt, createdAt⟩,
           create_access_token st now [("sub", .str (uuidStr newId))] none)) ∧
      (create_access_token st now [("sub", .str (uuidStr newId))] none).subClaim =
        some (.str (uuidStr newId))) := by
  constructor
  · intro hn hex
    obtain ⟨u, hu, hue⟩ := hex
    subst hue
    have hf := filter_key_eq_single (fun x : UserRec => x.email) hn hu
    simp [signup_user, hf, one_or_none]
  · intro hf
    exact ⟨by simp [signup_user, hf, one_or_none], subClaim_create st now _ none⟩

/-- C4 witness: a duplicate email is rejected with no write; a fresh email
appends exactly the one new hashed record. -/
theorem signup_duplicate_or_fresh_witness :
    signup_user ⟨"k", "HS256", 10080⟩ 0 [⟨5, "a@b.com", .hashed "pw" 1, 0⟩]
      "a@b.com" "pw2" 6 2 0 =
      ([⟨5, "a@b.com", .hashed "pw" 1, 0⟩], .error .userAlreadyExists) ∧
    signup_user ⟨"k", "HS256", 10080⟩ 0 [⟨5, "a@b.com", .hashed "pw" 1, 0⟩]
      "c@d.com" "pw2" 6 2 0 =
      ([⟨5, "a@b.com", .hashed "pw" 1, 0⟩,
        ⟨6, "c@d.com", get_password_hash "pw2" 2, 0⟩],
       .ok (⟨6, "c@d.com", get_password_hash "pw2" 2, 0⟩,
         create_access_token ⟨"k", "HS256", 10080⟩ 0
           [("sub", .str (uuidStr 6))] none)) :=
  ⟨(signup_duplicate_or_fresh ⟨"k", "HS256", 10080⟩ 0
      [⟨5, "a@b.com", .hashed "pw" 1, 0⟩] "a@b.com" "pw2" 6 2 0).1 (by decide)
      ⟨⟨5, "a@b.com", .hashed "pw" 1, 0⟩, by decide, rfl⟩,
   ((signup_duplicate_or_fresh ⟨"k", "HS256", 10080⟩ 0
      [⟨5, "a@b.com", .hashed "pw" 1, 0⟩] "c@d.com" "pw2" 6 2 0).2 (by decide)).1⟩

/-- C5: for a job whose metadata resolves — registered entity type, UUID
entity id, string-named progress field — and whose entity is persisted, the
middleware sets the entity's progress flag to true before execution and to
false after execution, for a successful and for a raising job alike. -/
theorem progress_flag_set_and_cleared
    (registry : EntityRegistry) (message : TaskMessage) (db : EntityDb)
    (eid : Nat) (et : String) (eip : PyVal) (f : String) (o : JobOutcome)
    (hinfo : get_entity_info registry message = .ok (some (eid, et, eip, .str f)))
    (hrow : ∃ r ∈ db, r.id = eid) :
    pre_execute registry false db message = .ok (updFlags db eid f true) ∧
    flagOf (updFlags db eid f true) eid f = some true ∧
    runJob registry false false db message o =
      .ok (updFlags (updFlags db eid f true) eid f false, o) ∧
    flagOf (updFlags (updFlags db eid f true) eid f false) eid f = some false := by
  have h1 : pre_execute registry false db message = .ok (updFlags db eid f true) := by
    simp [pre_execute, set_in_progress, hinfo, sessionUpdate]
  refine ⟨h1, flagOf_updFlags f true hrow, ?_,
    flagOf_updFlags f false (exists_id_updFlags f true hrow)⟩
  cases o <;>
    simp [runJob, h1, pre_execute, post_execute, on_error, set_in_progress,
      hinfo, sessionUpdate]

/-- C5 witness: a concrete raising job on a registered `chapter` entity:
the flag is true after `pre_execute` and false after the failure. -/
theorem progress_flag_set_and_cleared_witness :
    pre_execute ["chapter"] false [⟨5, [("gen_in_progress", false)]⟩]
      ⟨"gen", [("entity_type", .str "chapter"), ("entity_id_param", .str "chapter_id"),
        ("progress_field", .str "gen_in_progress")],
        [.str "00000000-0000-0000-0000-000000000005"], []⟩ =
      .ok (updFlags [⟨5, [("gen_in_progress", false)]⟩] 5 "gen_in_progress" true) ∧
    flagOf (updFlags [⟨5, [("gen_in_progress", false)]⟩] 5 "gen_in_progress" true)
      5 "gen_in_progress" = some true ∧
    runJob ["chapter"] false false [⟨5, [("gen_in_progress", false)]⟩]
      ⟨"gen", [("entity_type", .str "chapter"), ("entity_id_param", .str "chapter_id"),
        ("progress_field", .str "gen_in_progress")],
        [.str "00000000-0000-0000-0000-000000000005"], []⟩ .raised =
      .ok (updFlags (updFlags [⟨5, [("gen_in_progress", false)]⟩] 5
        "gen_in_progress" true) 5 "gen_in_progress" false, .raised) ∧
    flagOf (updFlags (updFlags [⟨5, [("gen_in_progress", false)]⟩] 5
      "gen_in_progress" true) 5 "gen_in_progress" false)
      5 "gen_in_progress" = some false :=
  progress_flag_set_and_cleared ["chapter"]
    ⟨"gen", [("entity_type", .str "chapter"), ("entity_id_param", .str "chapter_id"),
      ("progress_field", .str "gen_in_progress")],
      [.str "00000000-0000-0000-0000-000000000005"], []⟩
    [⟨5, [("gen_in_progress", false)]⟩] 5 "chapter" (.str "chapter_id")
    "gen_in_progress" .raised (by decide)
    ⟨⟨5, [("gen_in_progress", false)]⟩, by decide, rfl⟩

/-- C6: a flag-update failure is swallowed — `_set_in_progress` returns with
the database unchanged — and under every pattern of flag-update failures the
middleware hooks raise nothing and leave the wrapped job's outcome
unchanged, for jobs whose metadata extraction itself does not raise. -/
theorem progress_update_failure_isolated
    (registry : EntityRegistry) (message : TaskMessage) (db : EntityDb)
    (info : Option (Nat × String × PyVal × PyVal)) (o : JobOutcome)
    (hinfo : get_entity_info registry message = .ok info) :
    (∀ b, set_in_progress registry true db message b = .ok db) ∧
    (∀ failPre failPost,
      (runJob registry failPre failPost db message o).map (fun r => r.2) =
        .ok o) := by
  have hok : ∀ fail d2 b, ∃ d3,
      set_in_progress registry fail d2 message b = .ok d3 := by
    intro fail d2 b
    rcases info with _ | ⟨eid, et, eip, pf⟩
    · exact ⟨d2, by simp [set_in_progress, hinfo]⟩
    · cases fail with
      | false =>
        cases pf with
        | num n => exact ⟨d2, by simp [set_in_progress, hinfo, sessionUpdate]⟩
        | str f =>
          exact ⟨updFlags d2 eid f b, by simp [set_in_progress, hinfo, sessionUpdate]⟩
      | true => exact ⟨d2, by simp [set_in_progress, hinfo, sessionUpdate]⟩
  constructor
  · intro b
    rcases info with _ | ⟨eid, et, eip, pf⟩
    · simp [set_in_progress, hinfo]
    · simp [set_in_progress, hinfo, sessionUpdate]
  · intro failPre failPost
    obtain ⟨d1, hd1⟩ := hok failPre db true
    obtain ⟨d2, hd2⟩ := hok failPost d1 false
    cases o <;>
      simp [runJob, pre_execute, post_execute, on_error, hd1, hd2, Except.map]

/-- C6 witness: with the database failing on every update, the hooks still
return normally, the database is untouched, and a raising job's outcome is
unchanged. -/
theorem progress_update_failure_isolated_witness :
    set_in_progress ["chapter"] true [⟨5, [("gen_in_progress", true)]⟩]
      ⟨"gen", [("entity_type", .str "chapter"), ("entity_id_param", .str "chapter_id"),
        ("progress_field", .str "gen_in_progress")],
        [.str "00000000-0000-0000-0000-000000000005"], []⟩ false =
      .ok [⟨5, [("gen_in_progress", true)]⟩] ∧
    (runJob ["chapter"] true true [⟨5, [("gen_in_progress", true)]⟩]
      ⟨"gen", [("entity_type", .str "chapter"), ("entity_id_param", .str "chapter_id"),
        ("progress_field", .str "gen_in_progress")],
        [.str "00000000-0000-0000-0000-000000000005"], []⟩ .raised).map
      (fun r => r.2) = .ok .raised :=
  ⟨(progress_update_failure_isolated ["chapter"]
      ⟨"gen", [("entity_type", .str "chapter"), ("entity_id_param", .str "chapter_id"),
        ("progress_field", .str "gen_in_progress")],
        [.str "00000000-0000-0000-0000-000000000005"], []⟩
      [⟨5, [("gen_in_progress", true)]⟩]
      (some (5, "chapter", .str "chapter_id", .str "gen_in_progress"))
      .raised (by decide)).1 false,
   (progress_update_failure_isolated ["chapter"]
      ⟨"gen", [("entity_type", .str "chapter"), ("entity_id_param", .str "chapter_id"),
        ("progress_field", .str "gen_in_progress")],
        [.str "00000000-0000-0000-0000-000000000005"], []⟩
      [⟨5, [("gen_in_progress", true)]⟩]
      (some (5, "chapter", .str "chapter_id", .str "gen_in_progress"))
      .raised (by decide)).2 true true⟩

end ProjectTemplate
